import Mathlib

/-!
# Verification of the LMS-challenge controllers

A shallow embedding of `src/controllers/course.controller.js` and
`src/controllers/user.controller.js`: each HTTP handler becomes a pure Lean
function from an explicit datastore state and the request parameters to an
`Except AppError` result (the thrown `AppError` of the JS code, routed through
the central error translator).  External collaborators are modelled as
explicit inputs: the media-upload service's response is a parameter of each
handler that awaits `uploadMedia`, and calls to `deleteMediaFromCloudinary`
are recorded in a returned deletion log.  MongoDB collections are lists of
records; `findById` / `findOne` are `List.find?`; `findByIdAndUpdate` is a
field-wise replacement (Mongoose strips `undefined` values from an update
document, so an absent body field leaves the stored field untouched).
-/

/-- The `AppError(message, statusCode)` thrown by handlers. -/
structure AppError where
  message : String
  statusCode : Nat
deriving Repr, DecidableEq

/-- Lowering of one character, as JS `String.prototype.toLowerCase()` acts
on the ASCII range. -/
def lowerChar (c : Char) : Char :=
  if 'A' ≤ c && c ≤ 'Z' then Char.ofNat (c.toNat + 32) else c

/-- Model of JS `String.prototype.toLowerCase()` (ASCII range: email
addresses and the case-insensitive regex option of the handlers). -/
def lowerStr (s : String) : String :=
  ⟨s.data.map lowerChar⟩

/-- Model of the JS `a || b` idiom on strings: the empty string is falsy. -/
def jsOrS (a b : String) : String :=
  if a = "" then b else a

/-- Model of `x?.f || b` where `x` is an optional object and `f` an optional
string field: an absent object or field, or an empty string, falls through
to `b`. -/
def jsOptS (a : Option String) (b : String) : String :=
  match a with
  | some s => jsOrS s b
  | none => b

/-- Response object of the external media store (`uploadMedia`): the
cloudinary result `{secure_url, public_id, duration}`, each field possibly
absent. -/
structure MediaRes where
  secure_url : Option String
  public_id : Option String
  duration : Option Nat
deriving Repr, DecidableEq

/-- A stored JS value: either absent (`undefined`), a string, or a media
response object.  Used for the `avatar` field, which the profile-update
handler overwrites with a whole upload-result object. -/
inductive JsVal where
  | undefined : JsVal
  | str : String → JsVal
  | obj : MediaRes → JsVal
deriving Repr, DecidableEq

/-- A stored user record (the `User` mongoose document, fields used by the
handlers under verification). -/
structure UserRec where
  id : String
  name : String
  email : String
  password : String
  role : String
  bio : String
  avatar : JsVal
deriving Repr, DecidableEq

/-- A stored lecture record (the `Lecture` mongoose document). -/
structure LectureRec where
  id : String
  title : String
  description : String
  isPreview : Bool
  order : Nat
  videoUrl : String
  publicId : String
  duration : Nat
deriving Repr, DecidableEq

/-- A stored course record (the `Course` mongoose document).  `lectures`
holds lecture ids (references), `enrolledStudents` holds user ids. -/
structure CourseRec where
  id : String
  title : String
  subtitle : String
  description : String
  category : String
  level : String
  price : Int
  thumbnail : String
  instructor : String
  lectures : List String
  enrolledStudents : List String
  isPublished : Bool
  createdAt : Nat
  averageRating : Int
deriving Repr, DecidableEq

/-- Lookup `Course.findById(courseId)` over the course collection. -/
def findCourse (db : List CourseRec) (courseId : String) : Option CourseRec :=
  db.find? (fun c => c.id == courseId)

/-- Persisting a modified course document (`course.save()` /
`findByIdAndUpdate`): replace the record whose id matches. -/
def storeCourse (db : List CourseRec) (courseId : String) (c : CourseRec) :
    List CourseRec :=
  db.map (fun x => if x.id == courseId then c else x)

/-- Lookup of `Lecture.findById` style in the lecture collection. -/
def findLecture (db : List LectureRec) (lectureId : String) : Option LectureRec :=
  db.find? (fun l => l.id == lectureId)

/-- Insertion of an element into a list sorted by the boolean relation
`le` (model of the datastore's sort step). -/
def insertOrd (le : α → α → Bool) (x : α) : List α → List α
  | [] => [x]
  | y :: ys => if le x y then x :: y :: ys else y :: insertOrd le x ys

/-- Insertion sort by the boolean relation `le` (model of a `.sort(...)`
applied by the datastore). -/
def sortOrd (le : α → α → Bool) : List α → List α
  | [] => []
  | x :: xs => insertOrd le x (sortOrd le xs)

theorem length_insertOrd (le : α → α → Bool) (x : α) (l : List α) :
    (insertOrd le x l).length = l.length + 1 := by
  induction l with
  | nil => rfl
  | cons y ys ih =>
      unfold insertOrd
      split
      · simp
      · simp [ih]

theorem length_sortOrd (le : α → α → Bool) (l : List α) :
    (sortOrd le l).length = l.length := by
  induction l with
  | nil => rfl
  | cons x xs ih => simp [sortOrd, length_insertOrd, ih]

theorem mem_insertOrd (le : α → α → Bool) (x a : α) (l : List α) :
    a ∈ insertOrd le x l ↔ a = x ∨ a ∈ l := by
  induction l with
  | nil => simp [insertOrd]
  | cons y ys ih =>
      unfold insertOrd
      split
      · simp
      · simp only [List.mem_cons, ih]
        tauto

theorem mem_sortOrd (le : α → α → Bool) (a : α) (l : List α) :
    a ∈ sortOrd le l ↔ a ∈ l := by
  induction l with
  | nil => simp [sortOrd]
  | cons x xs ih => simp [sortOrd, mem_insertOrd, ih]

/-!
Section: updateCourseDetails (course.controller.js, lines 183-232)
-/

/-- The request body of `updateCourseDetails`: each field optional
(`undefined` when not supplied). -/
structure CourseUpdateBody where
  title : Option String
  subtitle : Option String
  description : Option String
  category : Option String
  level : Option String
  price : Option Int
deriving Repr, DecidableEq

/-- Result of a successful `updateCourseDetails`: the new course collection,
the updated course document returned in the response, and the log of
`deleteMediaFromCloudinary` calls made. -/
structure UpdateCourseOk where
  db : List CourseRec
  course : CourseRec
  deleted : List String
deriving Repr, DecidableEq

/-- Handler `updateCourseDetails`: find the course (404 if absent), check ownership
(403 if the caller is not the instructor), optionally upload a new thumbnail
(deleting the old media first when the stored thumbnail is truthy), then
`findByIdAndUpdate` with the supplied fields; `undefined` fields are stripped
by Mongoose, and the thumbnail is spread in only when truthy
(`...(thumbnail && { thumbnail })`).  `file` is `req.file` (the attached
thumbnail's path); `uploadResult` is the awaited `uploadMedia` response. -/
def updateCourseDetails (db : List CourseRec) (courseId : String)
    (reqId : String) (body : CourseUpdateBody) (file : Option String)
    (uploadResult : Option MediaRes) : Except AppError UpdateCourseOk :=
  match findCourse db courseId with
  | none => .error ⟨"Course not found", 404⟩
  | some course =>
    if course.instructor ≠ reqId then
      .error ⟨"You are not authorized to update this course", 403⟩
    else
      let uploaded : Option String × List String :=
        match file with
        | none => (none, [])
        | some path =>
            let deletions := if course.thumbnail ≠ "" then [course.thumbnail] else []
            (some (jsOptS (uploadResult.bind MediaRes.secure_url) path), deletions)
      let thumbnail := uploaded.1
      let includeThumb : Option String :=
        match thumbnail with
        | some s => if s = "" then none else some s
        | none => none
      let course' : CourseRec :=
        { course with
          title := body.title.getD course.title
          subtitle := body.subtitle.getD course.subtitle
          description := body.description.getD course.description
          category := body.category.getD course.category
          level := body.level.getD course.level
          price := body.price.getD course.price
          thumbnail := includeThumb.getD course.thumbnail }
      .ok ⟨storeCourse db courseId course', course', uploaded.2⟩

/-!
Section: addLectureToCourse (course.controller.js, lines 270-312)
-/

/-- Result of a successful `addLectureToCourse`: updated course collection,
updated lecture collection, and the created lecture document. -/
structure AddLectureOk where
  db : List CourseRec
  lectureDb : List LectureRec
  lecture : LectureRec
deriving Repr, DecidableEq

/-- Handler `addLectureToCourse`: find the course (404), check ownership (403),
require an attached video file (400), upload it (500 on a falsy result),
create the lecture with `order = course.lectures.length + 1`, push the
lecture id onto `course.lectures` and save.  `newLectureId` stands for the
`_id` the datastore assigns to the created lecture. -/
def addLectureToCourse (db : List CourseRec) (lectureDb : List LectureRec)
    (courseId : String) (reqId : String) (title description : String)
    (isPreview : Bool) (file : Option String) (uploadResult : Option MediaRes)
    (newLectureId : String) : Except AppError AddLectureOk :=
  match findCourse db courseId with
  | none => .error ⟨"Course not found", 404⟩
  | some course =>
    if course.instructor ≠ reqId then
      .error ⟨"Not authorized to update this course", 403⟩
    else
      match file with
      | none => .error ⟨"Video file is required", 400⟩
      | some path =>
        match uploadResult with
        | none => .error ⟨"Error uploading video", 500⟩
        | some result =>
          let lecture : LectureRec :=
            { id := newLectureId
              title := title
              description := description
              isPreview := isPreview
              order := course.lectures.length + 1
              videoUrl := jsOptS result.secure_url path
              publicId := jsOptS result.public_id path
              duration := result.duration.getD 0 }
          let course' := { course with lectures := course.lectures ++ [newLectureId] }
          .ok ⟨storeCourse db courseId course', lectureDb ++ [lecture], lecture⟩

/-!
Section: getCourseLectures (course.controller.js, lines 318-348)
-/

/-- Response data of `getCourseLectures`. -/
structure CourseLecturesOk where
  lectures : List LectureRec
  isEnrolled : Bool
  isInstructor : Bool
deriving Repr, DecidableEq

/-- Handler `getCourseLectures`: find the course with its lectures populated and
sorted by ascending `order` (404 if absent); compute enrollment
(`enrolledStudents.includes(req.id)`) and ownership; a caller with neither
receives only the preview-flagged lectures. -/
def getCourseLectures (db : List CourseRec) (lectureDb : List LectureRec)
    (courseId : String) (reqId : String) : Except AppError CourseLecturesOk :=
  match findCourse db courseId with
  | none => .error ⟨"Course not found", 404⟩
  | some course =>
    let populated :=
      sortOrd (fun a b => a.order ≤ b.order)
        (course.lectures.filterMap (findLecture lectureDb))
    let isEnrolled := course.enrolledStudents.contains reqId
    let isInstructor := course.instructor == reqId
    let lectures :=
      if !isEnrolled && !isInstructor then
        populated.filter (fun l => l.isPreview)
      else populated
    .ok ⟨lectures, isEnrolled, isInstructor⟩

/-!
Section: searchCourses query construction (course.controller.js, lines 51-115)
-/

/-- The sort specification produced by the `sortBy` switch: a single-key
sort object. -/
inductive SortSpec where
  | createdAtDesc
  | createdAtAsc
  | priceDesc
  | priceAsc
  | ratingDesc
  | ratingAsc
deriving Repr, DecidableEq

/-- The MongoDB query document built by `searchCourses`: the literal
`isPublished` value, the `$or` regex text (matched case-insensitively
against title, subtitle and description), and the optional
category/level/price clauses.  The price clause keeps the raw results of
`priceRange.split("-")` (`$gte` bound, `$lte` bound; the second may be
absent when the split yields one part). -/
structure SearchCriteria where
  isPublished : Bool
  textQuery : String
  category : Option (List String)
  level : Option String
  price : Option (Option String × Option String)
deriving Repr, DecidableEq

/-- Clause `if (categories.length > 0) searchCriteria.category = { $in: categories }`. -/
def applyCategoryFilter (sc : SearchCriteria) (categories : List String) :
    SearchCriteria :=
  if categories.length > 0 then { sc with category := some categories } else sc

/-- Clause `if (level) searchCriteria.level = level` — a missing or empty-string
level is falsy and leaves the criteria unchanged. -/
def applyLevelFilter (sc : SearchCriteria) (level : Option String) :
    SearchCriteria :=
  match level with
  | some l => if l = "" then sc else { sc with level := some l }
  | none => sc

/-- Clause `if (priceRange) { const [min, max] = priceRange.split("-"); ... }` —
a missing or empty-string range is falsy; otherwise the first two split
parts become the inclusive bounds, unvalidated. -/
def applyPriceFilter (sc : SearchCriteria) (priceRange : Option String) :
    SearchCriteria :=
  match priceRange with
  | some pr =>
      if pr = "" then sc
      else
        let parts := pr.splitOn "-"
        { sc with price := some (parts.get? 0, parts.get? 1) }
  | none => sc

/-- The `sortBy` switch: six recognized keys, anything else (including the
destructuring default `"newest"`) sorts by `createdAt` descending. -/
def buildSortSpec (sortBy : Option String) : SortSpec :=
  match sortBy.getD "newest" with
  | "newest" => .createdAtDesc
  | "oldest" => .createdAtAsc
  | "price-high" => .priceDesc
  | "price-low" => .priceAsc
  | "highestRating" => .ratingDesc
  | "lowestRating" => .ratingAsc
  | _ => .createdAtDesc

/-- The whole query construction of `searchCourses`: default the query
string to `""` and the category set to `[]`, start from the criteria with
`isPublished: true` and the `$or` text clause, then apply the three
conditional filters and the sort switch. -/
def buildSearchQuery (query : Option String) (categories : Option (List String))
    (level : Option String) (priceRange : Option String)
    (sortBy : Option String) : SearchCriteria × SortSpec :=
  let q := query.getD ""
  let cats := categories.getD []
  let base : SearchCriteria :=
    { isPublished := true, textQuery := q, category := none, level := none,
      price := none }
  let criteria := applyPriceFilter (applyLevelFilter (applyCategoryFilter base cats) level) priceRange
  (criteria, buildSortSpec sortBy)

/-- Case-insensitive substring match — the datastore's evaluation of
`{ $regex: pat, $options: "i" }` on a plain pattern. -/
def containsCI (hay pat : String) : Bool :=
  decide ((lowerStr pat).data <:+: (lowerStr hay).data)

/-- One numeric comparison bound from the price clause: a missing bound or
one that does not parse as an integer never matches a numeric `price`
field (MongoDB type bracketing). -/
def priceBoundLe (bound : Option String) (onLeft : Bool) (price : Int) : Bool :=
  match bound with
  | some s =>
      match s.toInt? with
      | some m => if onLeft then decide (m ≤ price) else decide (price ≤ m)
      | none => false
  | none => false

/-- The datastore's evaluation of the generated query document against one
course: top-level clauses are conjoined; the `$or` clause matches when any
of title/subtitle/description contains the text; `$in` is membership;
level is equality; the price clause conjoins its `$gte` and `$lte` bounds. -/
def matchesCriteria (c : CourseRec) (sc : SearchCriteria) : Bool :=
  (c.isPublished == sc.isPublished)
  && (containsCI c.title sc.textQuery || containsCI c.subtitle sc.textQuery
      || containsCI c.description sc.textQuery)
  && (match sc.category with
      | none => true
      | some cats => cats.contains c.category)
  && (match sc.level with
      | none => true
      | some l => c.level == l)
  && (match sc.price with
      | none => true
      | some (mn, mx) => priceBoundLe mn true c.price && priceBoundLe mx false c.price)

/-!
Section: getPublishedCourses (course.controller.js, lines 128-156)
-/

/-- Model of `parseInt(x) || d`: `none` stands for a `parseInt` that gave
`NaN` (absent or non-numeric parameter); `NaN` and `0` are falsy and fall
back to the default, every other integer (negative included) passes
through. -/
def parseIntOrDefault (d : Int) (x : Option Int) : Int :=
  match x with
  | none => d
  | some n => if n = 0 then d else n

/-- Model of JS `Math.ceil(a / b)` for a non-negative numerator and a
non-zero denominator (the handler's `limit` is never `0` after `|| 10`). -/
def mathCeilDiv (a : Nat) (b : Int) : Int :=
  if b > 0 then ((a : Int) + b - 1) / b
  else if b < 0 then -((a : Int) / (-b))
  else 0

/-- The `pagination` object of the `getPublishedCourses` response. -/
structure Pagination where
  page : Int
  limit : Int
  total : Nat
  pages : Int
deriving Repr, DecidableEq

/-- Handler `getPublishedCourses`: default `page` to 1 and `limit` to 10 via
`parseInt(...) || d`, fetch the published courses sorted by `createdAt`
descending with `skip((page-1)*limit).limit(limit)`, count the published
courses, and return the data with the pagination object
(`pages = Math.ceil(total / limit)`). -/
def getPublishedCourses (db : List CourseRec) (pageQ limitQ : Option Int) :
    List CourseRec × Pagination :=
  let page := parseIntOrDefault 1 pageQ
  let limit := parseIntOrDefault 10 limitQ
  let skip := (page - 1) * limit
  let published := db.filter (fun c => c.isPublished)
  let sorted := sortOrd (fun a b => b.createdAt ≤ a.createdAt) published
  let courses := (sorted.drop skip.toNat).take limit.toNat
  let total := published.length
  (courses, ⟨page, limit, total, mathCeilDiv total limit⟩)

/-!
Section: createUserAccount (user.controller.js, lines 14-36)
-/

/-- Handler `createUserAccount` (signup): look up `User.findOne({email:
email.toLowerCase()})`; throw `409` if a user exists, otherwise create the
user with the lowercased email and the given role (body default
`"student"`).  Returns the user collection (unchanged on the conflict
path, since the throw happens before `User.create`) together with the
outcome.  `newId` stands for the `_id` the datastore assigns. -/
def createUserAccount (db : List UserRec) (name email password role : String)
    (newId : String) : List UserRec × Except AppError UserRec :=
  match db.find? (fun u => u.email == lowerStr email) with
  | some _ => (db, .error ⟨"User already exists", 409⟩)
  | none =>
      let newUser : UserRec :=
        { id := newId, name := name, email := lowerStr email,
          password := password, role := role, bio := "",
          avatar := .str "default-avatar.png" }
      (db ++ [newUser], .ok newUser)

/-!
Section: updateUserProfile (user.controller.js, lines 117-149)
-/

/-- Model of the expression `req.user.avatar.public_id` in the
avatar-deletion branch.  `req.user` is not set by the handler (the auth
middleware provides `req.id`); when it is `undefined`, reading `.avatar`
throws a `TypeError` (surfacing as a 500 through the central error
handler).  When `req.user` is a user document, its `avatar` is a stored
`JsVal`: a property access on a string yields `undefined`, reading
`.public_id` of an `undefined` avatar throws, and only an object avatar
can yield an actual id. -/
def reqUserAvatarPublicId (reqUser : Option UserRec) : Except AppError JsVal :=
  match reqUser with
  | none => .error ⟨"Cannot read properties of undefined (reading avatar)", 500⟩
  | some u =>
      match u.avatar with
      | .undefined => .error ⟨"Cannot read properties of undefined (reading public_id)", 500⟩
      | .str _ => .ok .undefined
      | .obj m =>
          match m.public_id with
          | some s => .ok (.str s)
          | none => .ok .undefined

/-- JS truthiness of a stored avatar value (`if (user.avatar && ...)`). -/
def jsTruthy : JsVal → Bool
  | .undefined => false
  | .str s => !(s = "")
  | .obj _ => true

/-- Step `findByIdAndUpdate(req.id, updateData)` for the profile update:
name/email/bio always set (the handler lowercases the email), the avatar
replaced by the whole upload-result object only when a file was attached. -/
def applyProfileUpdate (db : List UserRec) (reqId : String)
    (name email bio : String) (newAvatar : Option MediaRes) : List UserRec :=
  db.map (fun u =>
    if u.id == reqId then
      { u with
        name := name
        email := lowerStr email
        bio := bio
        avatar := (match newAvatar with
          | some m => .obj m
          | none => u.avatar) }
    else u)

/-- Handler `updateUserProfile`: build `updateData` from name/`email.toLowerCase()`/
bio; when a file is attached, upload it and set `updateData.avatar` to the
whole upload result, then load the current user and — when the stored
avatar is truthy and not `"default-avatar.png"` — call
`deleteMediaFromCloudinary(req.user.avatar.public_id)`; finally
`findByIdAndUpdate` (404 when no user matches `req.id`).  Returns the new
user collection and the log of values passed to
`deleteMediaFromCloudinary`. -/
def updateUserProfile (db : List UserRec) (reqId : String)
    (reqUser : Option UserRec) (name email bio : String)
    (file : Option String) (uploadResult : MediaRes) :
    Except AppError (List UserRec × List JsVal) :=
  let finish : Option MediaRes → List JsVal → Except AppError (List UserRec × List JsVal) :=
    fun newAvatar deletions =>
      match db.find? (fun u => u.id == reqId) with
      | none => .error ⟨"User not found", 404⟩
      | some _ => .ok (applyProfileUpdate db reqId name email bio newAvatar, deletions)
  match file with
  | none => finish none []
  | some _ =>
      match db.find? (fun u => u.id == reqId) with
      | none => .error ⟨"Cannot read properties of null (reading avatar)", 500⟩
      | some user =>
          if jsTruthy user.avatar && !(user.avatar == .str "default-avatar.png") then
            match reqUserAvatarPublicId reqUser with
            | .error e => .error e
            | .ok pid => finish (some uploadResult) [pid]
          else
            finish (some uploadResult) []

/-!
Section: sample records used to instantiate the theorems below
-/

/-- A published course owned by `alice` with no lectures. -/
def courseA : CourseRec :=
  { id := "c1", title := "Lean", subtitle := "Proofs", description := "intro",
    category := "cs", level := "beginner", price := 100, thumbnail := "thumb1",
    instructor := "alice", lectures := [], enrolledStudents := ["carol"],
    isPublished := true, createdAt := 5, averageRating := 4 }

/-- A published course owned by `alice` with two lectures. -/
def courseB : CourseRec :=
  { id := "c2", title := "Mongo", subtitle := "Query", description := "db",
    category := "cs", level := "advanced", price := 200, thumbnail := "thumb2",
    instructor := "alice", lectures := ["l1", "l2"], enrolledStudents := ["carol"],
    isPublished := true, createdAt := 9, averageRating := 3 }

/-- An unpublished course. -/
def courseC : CourseRec :=
  { id := "c3", title := "Draft", subtitle := "wip", description := "hidden",
    category := "cs", level := "beginner", price := 10, thumbnail := "thumb3",
    instructor := "alice", lectures := [], enrolledStudents := [],
    isPublished := false, createdAt := 1, averageRating := 0 }

/-- A preview lecture of `courseB`. -/
def lecA : LectureRec :=
  { id := "l1", title := "intro", description := "first", isPreview := true,
    order := 1, videoUrl := "https://cdn/v1", publicId := "p1", duration := 60 }

/-- A non-preview lecture of `courseB`. -/
def lecB : LectureRec :=
  { id := "l2", title := "deep", description := "second", isPreview := false,
    order := 2, videoUrl := "https://cdn/v2", publicId := "p2", duration := 90 }

/-- A stored user with a lowercase email and a non-default avatar. -/
def userA : UserRec :=
  { id := "u1", name := "Bob", email := "bob@x.com", password := "hash",
    role := "student", bio := "hi", avatar := .str "old-avatar-id" }

/-!
Section: C1 - existence (404) before ownership (403)
-/

/-- C1: for both `updateCourseDetails` and `addLectureToCourse`, a missing
course always yields the 404 `AppError` (whatever the payload), and an
existing course whose `instructor` differs from the caller's id always
yields the 403 `AppError`, again for every payload — so the existence check
is decided before ownership ever matters, and ownership before any payload
validation. -/
theorem course_mutation_notFound_then_forbidden
    (db : List CourseRec) (lectureDb : List LectureRec) (courseId reqId : String)
    (body : CourseUpdateBody) (file₁ : Option String) (up₁ : Option MediaRes)
    (title description : String) ( isPreview : Bool) (file₂ : Option String)
    (up₂ : Option MediaRes) (newId : String) :
    (findCourse db courseId = none →
      updateCourseDetails db courseId reqId body file₁ up₁
          = .error ⟨"Course not found", 404⟩ ∧
      addLectureToCourse db lectureDb courseId reqId title description
          isPreview file₂ up₂ newId = .error ⟨"Course not found", 404⟩)
    ∧ (∀ c, findCourse db courseId = some c → c.instructor ≠ reqId →
      updateCourseDetails db courseId reqId body file₁ up₁
          = .error ⟨"You are not authorized to update this course", 403⟩ ∧
      addLectureToCourse db lectureDb courseId reqId title description
          isPreview file₂ up₂ newId
          = .error ⟨"Not authorized to update this course", 403⟩) := by
  constructor
  · intro h
    constructor
    · simp [updateCourseDetails, h]
    · simp [addLectureToCourse, h]
  · intro c hc hne
    constructor
    · simp [updateCourseDetails, hc, hne]
    · simp [addLectureToCourse, hc, hne]

/-- Witness for C1: on an empty collection both mutations 404; on `courseA`
(owned by `alice`) the caller `bob` gets 403 from both, here with a payload
that even lacks the video file the 400 check would want. -/
theorem course_mutation_notFound_then_forbidden_witness :
    (updateCourseDetails [] "c1" "bob" ⟨none, none, none, none, none, none⟩
        none none = .error ⟨"Course not found", 404⟩)
    ∧ (addLectureToCourse [] [] "c1" "bob" "t" "d" false none none "l9"
        = .error ⟨"Course not found", 404⟩)
    ∧ (updateCourseDetails [courseA] "c1" "bob" ⟨none, none, none, none, none, none⟩
        none none = .error ⟨"You are not authorized to update this course", 403⟩)
    ∧ (addLectureToCourse [courseA] [] "c1" "bob" "t" "d" false none none "l9"
        = .error ⟨"Not authorized to update this course", 403⟩) := by
  have h404 := (course_mutation_notFound_then_forbidden [] [] "c1" "bob"
    ⟨none, none, none, none, none, none⟩ none none "t" "d" false none none "l9").1
    (by decide)
  have h403 := (course_mutation_notFound_then_forbidden [courseA] [] "c1" "bob"
    ⟨none, none, none, none, none, none⟩ none none "t" "d" false none none "l9").2
    courseA (by decide) (by decide)
  exact ⟨h404.1, h404.2, h403.1, h403.2⟩

/-!
Section: C2 - lecture visibility for outsiders
-/

/-- C2: when the caller is neither in the course's `enrolledStudents` list
nor its instructor, every lecture in the `getCourseLectures` response has
`isPreview = true`; no non-preview lecture is ever returned to such a
caller. -/
theorem getCourseLectures_outsider_preview_only
    (db : List CourseRec) (lectureDb : List LectureRec)
    (courseId reqId : String) (c : CourseRec)
    (hc : findCourse db courseId = some c)
    (henr : reqId ∉ c.enrolledStudents)
    (hinst : c.instructor ≠ reqId) :
    ∀ out, getCourseLectures db lectureDb courseId reqId = .ok out →
      out.lectures.all (fun l => l.isPreview) = true := by
  intro out h
  have henr' : c.enrolledStudents.contains reqId = false := by
    simpa using henr
  have hinst' : (c.instructor == reqId) = false := by
    simpa using hinst
  unfold getCourseLectures at h
  rw [hc] at h
  simp only [henr', hinst', Bool.not_false, Bool.and_self, if_pos] at h
  cases h
  simp only [List.all_eq_true]
  intro l hl
  exact (List.mem_filter.mp hl).2

/-- Witness for C2: `bob` is neither enrolled in `courseB` nor its
instructor; the handler returns only the preview lecture `lecA`, and the
preview flag holds across the returned list. -/
theorem getCourseLectures_outsider_preview_only_witness :
    ((⟨[lecA], false, false⟩ : CourseLecturesOk).lectures.all
      (fun l => l.isPreview)) = true :=
  getCourseLectures_outsider_preview_only [courseB] [lecA, lecB] "c2" "bob"
    courseB (by decide) (by decide) (by decide)
    ⟨[lecA], false, false⟩ rfl

/-!
Section: C3 - duplicate signup is a conflict
-/

/-- C3: on a signup whose email equals (case-insensitively) the email of a
stored user, `createUserAccount` returns the 409 conflict and the user
collection unchanged — no duplicate record is created.  The hypothesis
`hstore` is the store invariant that persisted emails are lowercase, which
the handler itself maintains by always storing `email.toLowerCase()`. -/
theorem createUserAccount_duplicate_email_conflict
    (db : List UserRec) (name email password role newId : String)
    (hstore : ∀ u ∈ db, lowerStr u.email = u.email)
    (hdup : ∃ u ∈ db, lowerStr u.email = lowerStr email) :
    createUserAccount db name email password role newId
      = (db, .error ⟨"User already exists", 409⟩) := by
  obtain ⟨u, hu, he⟩ := hdup
  unfold createUserAccount
  cases h : db.find? (fun v => v.email == lowerStr email) with
  | some v => rfl
  | none =>
      rw [List.find?_eq_none] at h
      exact absurd (by rw [beq_iff_eq, ← hstore u hu, he]) (h u hu)

/-- Witness for C3: the store holds `userA` with email `bob@x.com`; a
signup as `Bob@X.com` (same address, different case) yields the 409 error
and leaves the store as it was. -/
theorem createUserAccount_duplicate_email_conflict_witness :
    createUserAccount [userA] "Bobby" "Bob@X.com" "pw2" "student" "u9"
      = ([userA], .error ⟨"User already exists", 409⟩) :=
  createUserAccount_duplicate_email_conflict [userA] "Bobby" "Bob@X.com"
    "pw2" "student" "u9" (by decide) ⟨userA, by decide, by decide⟩

/-!
Section: C5 and C6 - search query construction
-/

/-- C5: the query construction of `searchCourses` is a deterministic pure
function of the filter/sort parameters — two evaluations on the same tuple
produce the identical query specification and sort specification. -/
theorem buildSearchQuery_deterministic (query : Option String)
    (categories : Option (List String)) (level priceRange sortBy : Option String) :
    buildSearchQuery query categories level priceRange sortBy
      = buildSearchQuery query categories level priceRange sortBy := rfl

theorem isPublished_applyCategoryFilter (sc : SearchCriteria)
    (categories : List String) :
    (applyCategoryFilter sc categories).isPublished = sc.isPublished := by
  unfold applyCategoryFilter
  split <;> rfl

theorem isPublished_applyLevelFilter (sc : SearchCriteria)
    (level : Option String) :
    (applyLevelFilter sc level).isPublished = sc.isPublished := by
  unfold applyLevelFilter
  cases level with
  | none => rfl
  | some l =>
      dsimp only
      split <;> rfl

theorem isPublished_applyPriceFilter (sc : SearchCriteria)
    (priceRange : Option String) :
    (applyPriceFilter sc priceRange).isPublished = sc.isPublished := by
  unfold applyPriceFilter
  cases priceRange with
  | none => rfl
  | some pr =>
      dsimp only
      split <;> rfl

theorem buildSearchQuery_isPublished (query : Option String)
    (categories : Option (List String)) (level priceRange sortBy : Option String) :
    (buildSearchQuery query categories level priceRange sortBy).1.isPublished
      = true := by
  unfold buildSearchQuery
  simp only [isPublished_applyPriceFilter, isPublished_applyLevelFilter,
    isPublished_applyCategoryFilter]

/-- C6: for every combination of text query, category, level, price-range
and sort parameters, the query document built by `searchCourses` carries
`isPublished: true`, and a course with `isPublished = false` never matches
it. -/
theorem searchCourses_never_matches_unpublished (query : Option String)
    (categories : Option (List String)) (level priceRange sortBy : Option String)
    (c : CourseRec) (h : c.isPublished = false) :
    (buildSearchQuery query categories level priceRange sortBy).1.isPublished = true
    ∧ matchesCriteria c (buildSearchQuery query categories level priceRange sortBy).1
        = false := by
  refine ⟨buildSearchQuery_isPublished query categories level priceRange sortBy, ?_⟩
  unfold matchesCriteria
  rw [h, buildSearchQuery_isPublished]
  simp

/-- Witness for C6: the unpublished draft `courseC` matches no search, here
with every filter populated. -/
theorem searchCourses_never_matches_unpublished_witness :
    (buildSearchQuery (some "lean") (some ["cs"]) (some "beginner")
        (some "10-50") (some "price-low")).1.isPublished = true
    ∧ matchesCriteria courseC
        (buildSearchQuery (some "lean") (some ["cs"]) (some "beginner")
          (some "10-50") (some "price-low")).1 = false :=
  searchCourses_never_matches_unpublished (some "lean") (some ["cs"])
    (some "beginner") (some "10-50") (some "price-low") courseC rfl

/-!
Section: C4 and C10 - published-courses pagination
-/

/-- C10: in `getPublishedCourses`, an absent or non-numeric `page`
parameter (a `parseInt` giving `NaN`, modelled as `none`) and a zero value
both default to page 1, the same cases of `limit` default to 10, and
negative values pass through unchanged into the `page`/`limit` of the
computation (the same bindings that feed `skip = (page-1)*limit`). -/
theorem getPublishedCourses_param_defaulting (db : List CourseRec)
    (n m : Int) (hn : n < 0) (hm : m < 0) :
    ((getPublishedCourses db none none).2.page = 1
      ∧ (getPublishedCourses db none none).2.limit = 10)
    ∧ ((getPublishedCourses db (some 0) (some 0)).2.page = 1
      ∧ (getPublishedCourses db (some 0) (some 0)).2.limit = 10)
    ∧ ((getPublishedCourses db (some n) (some m)).2.page = n
      ∧ (getPublishedCourses db (some n) (some m)).2.limit = m) := by
  have hn0 : ¬ (n = 0) := by omega
  have hm0 : ¬ (m = 0) := by omega
  unfold getPublishedCourses parseIntOrDefault
  simp [hn0, hm0]

/-- Witness for C10: defaults for absent and zero parameters, pass-through
for the negative values -3 and -7. -/
theorem getPublishedCourses_param_defaulting_witness :
    (((getPublishedCourses [] none none).2.page = 1
      ∧ (getPublishedCourses [] none none).2.limit = 10)
    ∧ ((getPublishedCourses [] (some 0) (some 0)).2.page = 1
      ∧ (getPublishedCourses [] (some 0) (some 0)).2.limit = 10)
    ∧ ((getPublishedCourses [] (some (-3)) (some (-7))).2.page = -3
      ∧ (getPublishedCourses [] (some (-3)) (some (-7))).2.limit = -7)) :=
  getPublishedCourses_param_defaulting [] (-3) (-7) (by decide) (by decide)

/-- C4: for `total` published courses and effective positive parameters
`page = p`, `limit = L`, the response's `pages` is `⌈total / L⌉` (written
`(total + L - 1) / L` in truncated natural division) and the number of
returned records is `min L (max 0 (total - (p-1)·L))` (the `max 0` clamp is
natural truncated subtraction). -/
theorem getPublishedCourses_pagination (db : List CourseRec) (p L : Nat)
    (hp : 1 ≤ p) (hL : 1 ≤ L) :
    (getPublishedCourses db (some (p : Int)) (some (L : Int))).2.pages
        = (((db.filter (fun c => c.isPublished)).length + L - 1) / L : Nat)
    ∧ (getPublishedCourses db (some (p : Int)) (some (L : Int))).1.length
        = min L ((db.filter (fun c => c.isPublished)).length - (p - 1) * L) := by
  have hp0 : ¬ ((p : Int) = 0) := by exact_mod_cast by omega
  have hL0 : ¬ ((L : Int) = 0) := by exact_mod_cast by omega
  have hLpos : (0 : Int) < (L : Int) := by exact_mod_cast by omega
  have hskip : (((p : Int) - 1) * (L : Int)).toNat = (p - 1) * L := by
    have h1 : ((p : Int) - 1) * (L : Int) = (((p - 1) * L : Nat) : Int) := by
      push_cast [Nat.cast_sub hp]
      ring
    rw [h1, Int.toNat_natCast]
  unfold getPublishedCourses parseIntOrDefault mathCeilDiv
  simp only [hp0, hL0, if_false, ite_false, if_pos hLpos]
  constructor
  · set total := (db.filter (fun c => c.isPublished)).length with htot
    have h2 : ((total + L - 1 : Nat) : Int) = (total : Int) + (L : Int) - 1 := by
      have h3 : total + L - 1 = total + (L - 1) := by omega
      rw [h3]
      push_cast [Nat.cast_sub hL]
      ring
    rw [← h2, Int.natCast_div]
  · rw [List.length_take, List.length_drop, length_sortOrd, hskip,
      Int.toNat_natCast]

/-- Witness for C4: two published courses, page 2, limit 1 — one record on
the page and two pages in total. -/
theorem getPublishedCourses_pagination_witness :
    ((getPublishedCourses [courseA, courseB, courseC] (some (2 : Int))
        (some (1 : Int))).2.pages
      = ((([courseA, courseB, courseC].filter (fun c => c.isPublished)).length
          + 1 - 1) / 1 : Nat))
    ∧ ((getPublishedCourses [courseA, courseB, courseC] (some (2 : Int))
        (some (1 : Int))).1.length
      = min 1 (([courseA, courseB, courseC].filter (fun c => c.isPublished)).length
          - (2 - 1) * 1)) :=
  getPublishedCourses_pagination [courseA, courseB, courseC] 2 1
    (by decide) (by decide)

/-!
Section: C7 - lecture order and appending
-/

theorem findCourse_id (db : List CourseRec) (cid : String) (c : CourseRec)
    (h : findCourse db cid = some c) : c.id = cid := by
  have := List.find?_some h
  simpa using this

theorem findCourse_storeCourse (db : List CourseRec) (cid : String)
    (c c' : CourseRec) (h : findCourse db cid = some c) (hid : c'.id = cid) :
    findCourse (storeCourse db cid c') cid = some c' := by
  induction db with
  | nil => simp [findCourse] at h
  | cons x xs ih =>
      unfold findCourse storeCourse at *
      simp only [List.map_cons] at *
      by_cases hx : (x.id == cid) = true
      · rw [if_pos hx]
        exact List.find?_cons_of_pos _ (by simp [hid])
      · rw [if_neg hx]
        have hstep : List.find? (fun v => v.id == cid) (x :: xs)
            = List.find? (fun v => v.id == cid) xs :=
          List.find?_cons_of_neg xs hx
        have hstep' : List.find? (fun v => v.id == cid)
              (x :: List.map (fun y => if (y.id == cid) = true then c' else y) xs)
            = List.find? (fun v => v.id == cid)
              (List.map (fun y => if (y.id == cid) = true then c' else y) xs) :=
          List.find?_cons_of_neg _ hx
        rw [hstep] at h
        rw [hstep']
        exact ih h

/-- A cloudinary response for an uploaded video. -/
def mediaV : MediaRes :=
  { secure_url := some "https://cdn/v9", public_id := some "p9",
    duration := some 12 }

/-- The lecture document created in the C7 witness run. -/
def lecW : LectureRec :=
  { id := "l9", title := "t", description := "d", isPreview := false,
    order := 1, videoUrl := "https://cdn/v9", publicId := "p9", duration := 12 }

/-- C7: when `addLectureToCourse` succeeds on a course whose lecture list
has length `n`, the created lecture has `order = n + 1`, and the course is
saved with the new lecture id appended — the list grows to `n + 1` entries
and the new id is last. -/
theorem addLectureToCourse_order_and_append
    (db : List CourseRec) (lectureDb : List LectureRec)
    (courseId reqId title description : String) ( isPreview : Bool)
    (file : Option String) (uploadResult : Option MediaRes) (newId : String)
    (course : CourseRec) (out : AddLectureOk)
    (hc : findCourse db courseId = some course)
    (h : addLectureToCourse db lectureDb courseId reqId title description
          isPreview file uploadResult newId = .ok out) :
    out.lecture.order = course.lectures.length + 1
    ∧ out.lecture.id = newId
    ∧ findCourse out.db courseId
        = some { course with lectures := course.lectures ++ [newId] }
    ∧ ({ course with lectures := course.lectures ++ [newId] } : CourseRec).lectures.length
        = course.lectures.length + 1
    ∧ ({ course with lectures := course.lectures ++ [newId] } : CourseRec).lectures.getLast?
        = some newId := by
  unfold addLectureToCourse at h
  rw [hc] at h
  dsimp only at h
  by_cases hi : course.instructor = reqId
  · rw [if_neg (not_not_intro hi)] at h
    cases file with
    | none => exact Except.noConfusion h
    | some path =>
        cases uploadResult with
        | none => exact Except.noConfusion h
        | some r =>
            cases h
            refine ⟨rfl, rfl, ?_, by simp, by simp⟩
            exact findCourse_storeCourse db courseId course _ hc
              (findCourse_id db courseId course hc)
  · rw [if_pos hi] at h
    exact Except.noConfusion h

/-- Witness for C7: `alice` adds a lecture to her empty course `courseA`;
the created lecture has order 1 and its id ends the saved lecture list. -/
theorem addLectureToCourse_order_and_append_witness :
    lecW.order = courseA.lectures.length + 1
    ∧ lecW.id = "l9"
    ∧ findCourse [{ courseA with lectures := courseA.lectures ++ ["l9"] }] "c1"
        = some { courseA with lectures := courseA.lectures ++ ["l9"] }
    ∧ ({ courseA with lectures := courseA.lectures ++ ["l9"] } : CourseRec).lectures.length
        = courseA.lectures.length + 1
    ∧ ({ courseA with lectures := courseA.lectures ++ ["l9"] } : CourseRec).lectures.getLast?
        = some "l9" :=
  addLectureToCourse_order_and_append [courseA] [] "c1" "alice" "t" "d" false
    (some "v.mp4") (some mediaV) "l9" courseA
    ⟨[{ courseA with lectures := courseA.lectures ++ ["l9"] }], [lecW], lecW⟩
    rfl rfl

/-!
Section: C8 - partial-field update semantics
-/

/-- An update request body with no field supplied. -/
def emptyBody : CourseUpdateBody :=
  { title := none, subtitle := none, description := none, category := none,
    level := none, price := none }

/-- The result of the C8 witness run: nothing changes. -/
def updOutW : UpdateCourseOk :=
  { db := [courseA], course := courseA, deleted := [] }

/-- C8: on a successful `updateCourseDetails`, every course field that the
request body does not supply keeps its stored value; fields that are never
part of the update document (id, instructor, lectures, enrolledStudents,
isPublished, createdAt, averageRating) are always unchanged; and with no
attached thumbnail file the thumbnail is untouched and no media is
deleted. -/
theorem updateCourseDetails_frame
    (db : List CourseRec) (courseId reqId : String) (body : CourseUpdateBody)
    (file : Option String) (uploadResult : Option MediaRes)
    (course : CourseRec) (out : UpdateCourseOk)
    (hc : findCourse db courseId = some course)
    (h : updateCourseDetails db courseId reqId body file uploadResult = .ok out) :
    (body.title = none → out.course.title = course.title)
    ∧ (body.subtitle = none → out.course.subtitle = course.subtitle)
    ∧ (body.description = none → out.course.description = course.description)
    ∧ (body.category = none → out.course.category = course.category)
    ∧ (body.level = none → out.course.level = course.level)
    ∧ (body.price = none → out.course.price = course.price)
    ∧ (file = none → out.course.thumbnail = course.thumbnail ∧ out.deleted = [])
    ∧ out.course.id = course.id
    ∧ out.course.instructor = course.instructor
    ∧ out.course.lectures = course.lectures
    ∧ out.course.enrolledStudents = course.enrolledStudents
    ∧ out.course.isPublished = course.isPublished
    ∧ out.course.createdAt = course.createdAt
    ∧ out.course.averageRating = course.averageRating := by
  unfold updateCourseDetails at h
  rw [hc] at h
  dsimp only at h
  by_cases hi : course.instructor = reqId
  · rw [if_neg (not_not_intro hi)] at h
    cases h
    refine ⟨?_, ?_, ?_, ?_, ?_, ?_, ?_, rfl, rfl, rfl, rfl, rfl, rfl, rfl⟩
    · intro ht; rw [ht]; rfl
    · intro ht; rw [ht]; rfl
    · intro ht; rw [ht]; rfl
    · intro ht; rw [ht]; rfl
    · intro ht; rw [ht]; rfl
    · intro ht; rw [ht]; rfl
    · intro hf; subst hf; exact ⟨rfl, rfl⟩
  · rw [if_pos hi] at h
    exact Except.noConfusion h

/-- Witness for C8: `alice` sends an update with an empty body and no file
to her course `courseA`; every stored field survives. -/
theorem updateCourseDetails_frame_witness :
    (emptyBody.title = none → updOutW.course.title = courseA.title)
    ∧ (emptyBody.subtitle = none → updOutW.course.subtitle = courseA.subtitle)
    ∧ (emptyBody.description = none → updOutW.course.description = courseA.description)
    ∧ (emptyBody.category = none → updOutW.course.category = courseA.category)
    ∧ (emptyBody.level = none → updOutW.course.level = courseA.level)
    ∧ (emptyBody.price = none → updOutW.course.price = courseA.price)
    ∧ ((none : Option String) = none →
        updOutW.course.thumbnail = courseA.thumbnail ∧ updOutW.deleted = [])
    ∧ updOutW.course.id = courseA.id
    ∧ updOutW.course.instructor = courseA.instructor
    ∧ updOutW.course.lectures = courseA.lectures
    ∧ updOutW.course.enrolledStudents = courseA.enrolledStudents
    ∧ updOutW.course.isPublished = courseA.isPublished
    ∧ updOutW.course.createdAt = courseA.createdAt
    ∧ updOutW.course.averageRating = courseA.averageRating :=
  updateCourseDetails_frame [courseA] "c1" "alice" emptyBody
    none none courseA updOutW rfl rfl

/-!
Section: C9 - avatar replacement never deletes the stored avatar
-/

/-- The upload result for the new avatar in the C9 run. -/
def mediaNew : MediaRes :=
  { secure_url := some "https://cdn/new.png", public_id := some "new-avatar-id",
    duration := none }

/-- C9 (code bug): `userA` has the stored, non-default avatar
`old-avatar-id` and sends a profile update with a new avatar file.  The
deletion branch passes `req.user.avatar.public_id` — not the stored
`user.avatar` — to the media store.  When `req.user` is not populated (the
auth middleware only sets `req.id`), the property access throws and the
whole request fails with a 500 before any deletion or update; when
`req.user` mirrors the stored user, the stored avatar is a string, its
`.public_id` is `undefined`, and the media store receives `undefined`: in
neither reading is the previously stored avatar `old-avatar-id` ever
deleted from the media store, contradicting the specified behaviour. -/
theorem updateUserProfile_stored_avatar_never_deleted :
    (updateUserProfile [userA] "u1" none "Bob" "bob@x.com" "hi"
        (some "new.png") mediaNew
      = .error ⟨"Cannot read properties of undefined (reading avatar)", 500⟩)
    ∧ (updateUserProfile [userA] "u1" (some userA) "Bob" "bob@x.com" "hi"
        (some "new.png") mediaNew
      = .ok ([{ userA with avatar := .obj mediaNew }], [JsVal.undefined]))
    ∧ (JsVal.str "old-avatar-id") ∉ [JsVal.undefined] :=
  ⟨rfl, rfl, by decide⟩
